import Mathlib

set_option maxHeartbeats 1000000

/-!
Verification of the zero-copy DMA-BUF import pipeline of the bevy-dmabuf
repository.  Every definition below is a shallow embedding of a function of
the repository's source (file and line references are given in the doc
comments); device interaction is modelled by explicit oracle records and
effect traces.
-/

namespace BevyDmabuf

/-- DRM four-character format codes (crate drm_fourcc::DrmFourcc) that appear
in the repository's format tables, plus two codes (Nv12, Yuyv) that exist in
the crate but are mapped by neither table, witnessing the catch-all arm. -/
inductive DrmFourcc where
  | Abgr1555
  | Abgr2101010
  | Abgr4444
  | Abgr8888
  | Argb1555
  | Argb2101010
  | Argb4444
  | Argb8888
  | Bgr565
  | Bgr888
  | Bgr888_a8
  | Bgra4444
  | Bgra5551
  | Bgra8888
  | Bgrx4444
  | Bgrx5551
  | Bgrx8888
  | R16
  | R8
  | Rg1616
  | Rg88
  | Rgb565
  | Rgb888
  | Rgb888_a8
  | Rgba4444
  | Rgba5551
  | Rgba8888
  | Rgbx4444
  | Rgbx5551
  | Rgbx8888
  | Xbgr1555
  | Xbgr2101010
  | Xbgr4444
  | Xbgr8888
  | Xrgb1555
  | Xrgb2101010
  | Xrgb4444
  | Xrgb8888
  | Nv12
  | Yuyv
deriving DecidableEq, Repr

/-- Vulkan formats (ash::vk::Format) appearing in the repository's tables. -/
inductive VkFormat where
  | A1R5G5B5_UNORM_PACK16
  | A2B10G10R10_UINT_PACK32
  | A2B10G10R10_UNORM_PACK32
  | A2R10G10B10_UNORM_PACK32
  | A4B4G4R4_UNORM_PACK16
  | A8B8G8R8_SRGB_PACK32
  | A8B8G8R8_UNORM_PACK32
  | ASTC_10X10_SFLOAT_BLOCK_EXT
  | ASTC_10X10_SRGB_BLOCK
  | ASTC_10X10_UNORM_BLOCK
  | ASTC_10X5_SFLOAT_BLOCK_EXT
  | ASTC_10X5_SRGB_BLOCK
  | ASTC_10X5_UNORM_BLOCK
  | ASTC_10X6_SFLOAT_BLOCK_EXT
  | ASTC_10X6_SRGB_BLOCK
  | ASTC_10X6_UNORM_BLOCK
  | ASTC_10X8_SFLOAT_BLOCK_EXT
  | ASTC_10X8_SRGB_BLOCK
  | ASTC_10X8_UNORM_BLOCK
  | ASTC_12X10_SFLOAT_BLOCK_EXT
  | ASTC_12X10_SRGB_BLOCK
  | ASTC_12X10_UNORM_BLOCK
  | ASTC_12X12_SFLOAT_BLOCK_EXT
  | ASTC_12X12_SRGB_BLOCK
  | ASTC_12X12_UNORM_BLOCK
  | ASTC_4X4_SFLOAT_BLOCK_EXT
  | ASTC_4X4_SRGB_BLOCK
  | ASTC_4X4_UNORM_BLOCK
  | ASTC_5X4_SFLOAT_BLOCK_EXT
  | ASTC_5X4_SRGB_BLOCK
  | ASTC_5X4_UNORM_BLOCK
  | ASTC_5X5_SFLOAT_BLOCK_EXT
  | ASTC_5X5_SRGB_BLOCK
  | ASTC_5X5_UNORM_BLOCK
  | ASTC_6X5_SFLOAT_BLOCK_EXT
  | ASTC_6X5_SRGB_BLOCK
  | ASTC_6X5_UNORM_BLOCK
  | ASTC_6X6_SFLOAT_BLOCK_EXT
  | ASTC_6X6_SRGB_BLOCK
  | ASTC_6X6_UNORM_BLOCK
  | ASTC_8X5_SFLOAT_BLOCK_EXT
  | ASTC_8X5_SRGB_BLOCK
  | ASTC_8X5_UNORM_BLOCK
  | ASTC_8X6_SFLOAT_BLOCK_EXT
  | ASTC_8X6_SRGB_BLOCK
  | ASTC_8X6_UNORM_BLOCK
  | ASTC_8X8_SFLOAT_BLOCK_EXT
  | ASTC_8X8_SRGB_BLOCK
  | ASTC_8X8_UNORM_BLOCK
  | B10G11R11_UFLOAT_PACK32
  | B4G4R4A4_UNORM_PACK16
  | B5G5R5A1_UNORM_PACK16
  | B5G6R5_UNORM_PACK16
  | B8G8R8A8_SRGB
  | B8G8R8A8_UINT
  | B8G8R8A8_UNORM
  | B8G8R8_SRGB
  | B8G8R8_UNORM
  | BC1_RGBA_SRGB_BLOCK
  | BC1_RGBA_UNORM_BLOCK
  | BC1_RGB_SRGB_BLOCK
  | BC1_RGB_UNORM_BLOCK
  | BC2_SRGB_BLOCK
  | BC2_UNORM_BLOCK
  | BC3_SRGB_BLOCK
  | BC3_UNORM_BLOCK
  | BC4_SNORM_BLOCK
  | BC4_UNORM_BLOCK
  | BC5_SNORM_BLOCK
  | BC5_UNORM_BLOCK
  | BC6H_SFLOAT_BLOCK
  | BC6H_UFLOAT_BLOCK
  | BC7_SRGB_BLOCK
  | BC7_UNORM_BLOCK
  | D16_UNORM
  | D32_SFLOAT
  | D32_SFLOAT_S8_UINT
  | E5B9G9R9_UFLOAT_PACK32
  | EAC_R11G11_SNORM_BLOCK
  | EAC_R11G11_UNORM_BLOCK
  | EAC_R11_SNORM_BLOCK
  | EAC_R11_UNORM_BLOCK
  | ETC2_R8G8B8A1_SRGB_BLOCK
  | ETC2_R8G8B8A1_UNORM_BLOCK
  | ETC2_R8G8B8A8_SRGB_BLOCK
  | ETC2_R8G8B8A8_UNORM_BLOCK
  | ETC2_R8G8B8_SRGB_BLOCK
  | ETC2_R8G8B8_UNORM_BLOCK
  | G8_B8R8_2PLANE_420_UNORM
  | R16G16B16A16_SFLOAT
  | R16G16B16A16_SINT
  | R16G16B16A16_SNORM
  | R16G16B16A16_UINT
  | R16G16B16A16_UNORM
  | R16G16_SFLOAT
  | R16G16_SINT
  | R16G16_SNORM
  | R16G16_UINT
  | R16G16_UNORM
  | R16_SFLOAT
  | R16_SINT
  | R16_SNORM
  | R16_UINT
  | R16_UNORM
  | R32G32B32A32_SFLOAT
  | R32G32B32A32_SINT
  | R32G32B32A32_UINT
  | R32G32_SFLOAT
  | R32G32_SINT
  | R32G32_UINT
  | R32_SFLOAT
  | R32_SINT
  | R32_UINT
  | R4G4B4A4_UNORM_PACK16
  | R5G5B5A1_UNORM_PACK16
  | R5G6B5_UNORM_PACK16
  | R8G8B8A8_SINT
  | R8G8B8A8_SNORM
  | R8G8B8A8_SRGB
  | R8G8B8A8_UINT
  | R8G8B8A8_UNORM
  | R8G8B8_SRGB
  | R8G8B8_UNORM
  | R8G8_SINT
  | R8G8_SNORM
  | R8G8_SRGB
  | R8G8_UINT
  | R8G8_UNORM
  | R8_SINT
  | R8_SNORM
  | R8_SRGB
  | R8_UINT
  | R8_UNORM


/-- ASTC block sizes of wgpu::AstcBlock. -/
inductive AstcBlock where
  | B4x4 | B5x4 | B5x5 | B6x5 | B6x6 | B8x5 | B8x6 | B8x8
  | B10x5 | B10x6 | B10x8 | B10x10 | B12x10 | B12x12
deriving DecidableEq, Repr

/-- ASTC channel kinds of wgpu::AstcChannel. -/
inductive AstcChannel where
  | Unorm | UnormSrgb | Hdr
deriving DecidableEq, Repr

/-- wgpu texture formats (wgpu::TextureFormat) appearing in vulkan_to_wgpu. -/
inductive WgpuTextureFormat where
  | R8Unorm
  | R8Snorm
  | R8Uint
  | R8Sint
  | R16Uint
  | R16Sint
  | R16Unorm
  | R16Snorm
  | R16Float
  | Rg8Unorm
  | Rg8Snorm
  | Rg8Uint
  | Rg8Sint
  | Rg16Unorm
  | Rg16Snorm
  | R32Uint
  | R32Sint
  | R32Float
  | Rg16Uint
  | Rg16Sint
  | Rg16Float
  | Rgba8Unorm
  | Rgba8UnormSrgb
  | Bgra8UnormSrgb
  | Rgba8Snorm
  | Bgra8Unorm
  | Rgba8Uint
  | Rgba8Sint
  | Rgb10a2Uint
  | Rgb10a2Unorm
  | Rg11b10Ufloat
  | Rg32Uint
  | Rg32Sint
  | Rg32Float
  | Rgba16Uint
  | Rgba16Sint
  | Rgba16Unorm
  | Rgba16Snorm
  | Rgba16Float
  | Rgba32Uint
  | Rgba32Sint
  | Rgba32Float
  | Depth32Float
  | Depth32FloatStencil8
  | Depth16Unorm
  | NV12
  | Rgb9e5Ufloat
  | Bc1RgbaUnorm
  | Bc1RgbaUnormSrgb
  | Bc2RgbaUnorm
  | Bc2RgbaUnormSrgb
  | Bc3RgbaUnorm
  | Bc3RgbaUnormSrgb
  | Bc4RUnorm
  | Bc4RSnorm
  | Bc5RgUnorm
  | Bc5RgSnorm
  | Bc6hRgbUfloat
  | Bc6hRgbFloat
  | Bc7RgbaUnorm
  | Bc7RgbaUnormSrgb
  | Etc2Rgb8Unorm
  | Etc2Rgb8UnormSrgb
  | Etc2Rgb8A1Unorm
  | Etc2Rgb8A1UnormSrgb
  | Etc2Rgba8Unorm
  | Etc2Rgba8UnormSrgb
  | EacR11Unorm
  | EacR11Snorm
  | EacRg11Unorm
  | EacRg11Snorm
  | Astc (block : AstcBlock) (channel : AstcChannel)


/-- Table src/format_mapping.rs lines 80-110, fn drm_fourcc_to_vk_format. -/
def drm_fourcc_to_vk_format : DrmFourcc → Option VkFormat
  | .Abgr1555 | .Xbgr1555 => some .R5G5B5A1_UNORM_PACK16
  | .Abgr2101010 | .Xbgr2101010 => some .A2B10G10R10_UNORM_PACK32
  | .Abgr4444 | .Xbgr4444 => some .A4B4G4R4_UNORM_PACK16
  | .Abgr8888 | .Xbgr8888 => some .R8G8B8A8_UNORM
  | .Argb1555 | .Xrgb1555 => some .A1R5G5B5_UNORM_PACK16
  | .Argb2101010 | .Xrgb2101010 => some .A2R10G10B10_UNORM_PACK32
  | .Argb4444 | .Xrgb4444 => some .B4G4R4A4_UNORM_PACK16
  | .Argb8888 | .Xrgb8888 => some .B8G8R8A8_UNORM
  | .Bgr565 => some .B5G6R5_UNORM_PACK16
  | .Bgr888 => some .B8G8R8_UNORM
  | .Bgr888_a8 => some .B8G8R8A8_UNORM
  | .Bgra4444 | .Bgrx4444 => some .B4G4R4A4_UNORM_PACK16
  | .Bgra5551 | .Bgrx5551 => some .B5G5R5A1_UNORM_PACK16
  | .Bgra8888 | .Bgrx8888 => some .B8G8R8A8_UNORM
  | .R16 => some .R16_UNORM
  | .R8 => some .R8_UNORM
  | .Rg1616 => some .R16G16_UNORM
  | .Rg88 => some .R8G8_UNORM
  | .Rgb565 => some .R5G6B5_UNORM_PACK16
  | .Rgb888 => some .R8G8B8_UNORM
  | .Rgb888_a8 => some .R8G8B8A8_UNORM
  | .Rgba4444 | .Rgbx4444 => some .R4G4B4A4_UNORM_PACK16
  | .Rgba5551 | .Rgbx5551 => some .R5G5B5A1_UNORM_PACK16
  | .Rgba8888 | .Rgbx8888 => some .R8G8B8A8_UNORM
  | _ => none

/-- Table src/format_mapping.rs lines 112-132, fn vk_format_to_srgb. -/
def vk_format_to_srgb : VkFormat → Option VkFormat
  | .R8_UNORM => some .R8_SRGB
  | .R8G8_UNORM => some .R8G8_SRGB
  | .R8G8B8_UNORM => some .R8G8B8_SRGB
  | .B8G8R8_UNORM => some .B8G8R8_SRGB
  | .R8G8B8A8_UNORM => some .R8G8B8A8_SRGB
  | .B8G8R8A8_UNORM => some .B8G8R8A8_SRGB
  | .A8B8G8R8_UNORM_PACK32 => some .A8B8G8R8_SRGB_PACK32
  | .BC1_RGB_UNORM_BLOCK => some .BC1_RGB_SRGB_BLOCK
  | .BC1_RGBA_UNORM_BLOCK => some .BC1_RGBA_SRGB_BLOCK
  | .BC2_UNORM_BLOCK => some .BC2_SRGB_BLOCK
  | .BC3_UNORM_BLOCK => some .BC3_SRGB_BLOCK
  | .BC7_UNORM_BLOCK => some .BC7_SRGB_BLOCK
  | .ETC2_R8G8B8_UNORM_BLOCK => some .ETC2_R8G8B8_SRGB_BLOCK
  | .ETC2_R8G8B8A1_UNORM_BLOCK => some .ETC2_R8G8B8A1_SRGB_BLOCK
  | .ETC2_R8G8B8A8_UNORM_BLOCK => some .ETC2_R8G8B8A8_SRGB_BLOCK
  | _ => none

/-- Table src/import/render_world/hal/formats/mod.rs lines 86-109 (macro
vk_format_table), fn get_vk_format, expanded for a little-endian host (the
cfg(target_endian = "little") arms are included, as on the build targets of
this Linux-only crate). -/
def get_vk_format : DrmFourcc → Option VkFormat
  | .Argb8888 => some .B8G8R8A8_UNORM
  | .Xrgb8888 => some .B8G8R8A8_UNORM
  | .Abgr8888 => some .R8G8B8A8_UNORM
  | .Xbgr8888 => some .R8G8B8A8_UNORM
  | .Rgba8888 => some .A8B8G8R8_UNORM_PACK32
  | .Rgbx8888 => some .A8B8G8R8_UNORM_PACK32
  | .Argb2101010 => some .A2R10G10B10_UNORM_PACK32
  | .Xrgb2101010 => some .A2R10G10B10_UNORM_PACK32
  | .Abgr2101010 => some .A2B10G10R10_UNORM_PACK32
  | .Xbgr2101010 => some .A2B10G10R10_UNORM_PACK32
  | _ => none

/-- Table src/asset/render_world/hal/formats/colorspace.rs lines 3-11,
fn to_srgb. -/
def to_srgb : VkFormat → Option VkFormat
  | .B8G8R8A8_UNORM => some .B8G8R8A8_SRGB
  | .R8G8B8A8_UNORM => some .R8G8B8A8_SRGB
  | .A8B8G8R8_UNORM_PACK32 => some .A8B8G8R8_SRGB_PACK32
  | _ => none

/-- Table src/format_mapping.rs lines 134-381, fn vulkan_to_wgpu. -/
def vulkan_to_wgpu : VkFormat → Option WgpuTextureFormat
  | .ASTC_4X4_UNORM_BLOCK => some (.Astc .B4x4 .Unorm)
  | .ASTC_5X4_UNORM_BLOCK => some (.Astc .B5x4 .Unorm)
  | .ASTC_5X5_UNORM_BLOCK => some (.Astc .B5x5 .Unorm)
  | .ASTC_6X5_UNORM_BLOCK => some (.Astc .B6x5 .Unorm)
  | .ASTC_6X6_UNORM_BLOCK => some (.Astc .B6x6 .Unorm)
  | .ASTC_8X5_UNORM_BLOCK => some (.Astc .B8x5 .Unorm)
  | .ASTC_8X6_UNORM_BLOCK => some (.Astc .B8x6 .Unorm)
  | .ASTC_8X8_UNORM_BLOCK => some (.Astc .B8x8 .Unorm)
  | .ASTC_10X5_UNORM_BLOCK => some (.Astc .B10x5 .Unorm)
  | .ASTC_10X6_UNORM_BLOCK => some (.Astc .B10x6 .Unorm)
  | .ASTC_10X8_UNORM_BLOCK => some (.Astc .B10x8 .Unorm)
  | .ASTC_10X10_UNORM_BLOCK => some (.Astc .B10x10 .Unorm)
  | .ASTC_12X10_UNORM_BLOCK => some (.Astc .B12x10 .Unorm)
  | .ASTC_12X12_UNORM_BLOCK => some (.Astc .B12x12 .Unorm)
  | .ASTC_4X4_SRGB_BLOCK => some (.Astc .B4x4 .UnormSrgb)
  | .ASTC_5X4_SRGB_BLOCK => some (.Astc .B5x4 .UnormSrgb)
  | .ASTC_5X5_SRGB_BLOCK => some (.Astc .B5x5 .UnormSrgb)
  | .ASTC_6X5_SRGB_BLOCK => some (.Astc .B6x5 .UnormSrgb)
  | .ASTC_6X6_SRGB_BLOCK => some (.Astc .B6x6 .UnormSrgb)
  | .ASTC_8X5_SRGB_BLOCK => some (.Astc .B8x5 .UnormSrgb)
  | .ASTC_8X6_SRGB_BLOCK => some (.Astc .B8x6 .UnormSrgb)
  | .ASTC_8X8_SRGB_BLOCK => some (.Astc .B8x8 .UnormSrgb)
  | .ASTC_10X5_SRGB_BLOCK => some (.Astc .B10x5 .UnormSrgb)
  | .ASTC_10X6_SRGB_BLOCK => some (.Astc .B10x6 .UnormSrgb)
  | .ASTC_10X8_SRGB_BLOCK => some (.Astc .B10x8 .UnormSrgb)
  | .ASTC_10X10_SRGB_BLOCK => some (.Astc .B10x10 .UnormSrgb)
  | .ASTC_12X10_SRGB_BLOCK => some (.Astc .B12x10 .UnormSrgb)
  | .ASTC_12X12_SRGB_BLOCK => some (.Astc .B12x12 .UnormSrgb)
  | .ASTC_4X4_SFLOAT_BLOCK_EXT => some (.Astc .B4x4 .Hdr)
  | .ASTC_5X4_SFLOAT_BLOCK_EXT => some (.Astc .B5x4 .Hdr)
  | .ASTC_5X5_SFLOAT_BLOCK_EXT => some (.Astc .B5x5 .Hdr)
  | .ASTC_6X5_SFLOAT_BLOCK_EXT => some (.Astc .B6x5 .Hdr)
  | .ASTC_6X6_SFLOAT_BLOCK_EXT => some (.Astc .B6x6 .Hdr)
  | .ASTC_8X5_SFLOAT_BLOCK_EXT => some (.Astc .B8x5 .Hdr)
  | .ASTC_8X6_SFLOAT_BLOCK_EXT => some (.Astc .B8x6 .Hdr)
  | .ASTC_8X8_SFLOAT_BLOCK_EXT => some (.Astc .B8x8 .Hdr)
  | .ASTC_10X5_SFLOAT_BLOCK_EXT => some (.Astc .B10x5 .Hdr)
  | .ASTC_10X6_SFLOAT_BLOCK_EXT => some (.Astc .B10x6 .Hdr)
  | .ASTC_10X8_SFLOAT_BLOCK_EXT => some (.Astc .B10x8 .Hdr)
  | .ASTC_10X10_SFLOAT_BLOCK_EXT => some (.Astc .B10x10 .Hdr)
  | .ASTC_12X10_SFLOAT_BLOCK_EXT => some (.Astc .B12x10 .Hdr)
  | .ASTC_12X12_SFLOAT_BLOCK_EXT => some (.Astc .B12x12 .Hdr)
  | .R8_UNORM => some (.R8Unorm)
  | .R8_SNORM => some (.R8Snorm)
  | .R8_UINT => some (.R8Uint)
  | .R8_SINT => some (.R8Sint)
  | .R16_UINT => some (.R16Uint)
  | .R16_SINT => some (.R16Sint)
  | .R16_UNORM => some (.R16Unorm)
  | .R16_SNORM => some (.R16Snorm)
  | .R16_SFLOAT => some (.R16Float)
  | .R8G8_UNORM => some (.Rg8Unorm)
  | .R8G8_SNORM => some (.Rg8Snorm)
  | .R8G8_UINT => some (.Rg8Uint)
  | .R8G8_SINT => some (.Rg8Sint)
  | .R16G16_UNORM => some (.Rg16Unorm)
  | .R16G16_SNORM => some (.Rg16Snorm)
  | .R32_UINT => some (.R32Uint)
  | .R32_SINT => some (.R32Sint)
  | .R32_SFLOAT => some (.R32Float)
  | .R16G16_UINT => some (.Rg16Uint)
  | .R16G16_SINT => some (.Rg16Sint)
  | .R16G16_SFLOAT => some (.Rg16Float)
  | .R8G8B8A8_UNORM => some (.Rgba8Unorm)
  | .R8G8B8A8_SRGB => some (.Rgba8UnormSrgb)
  | .B8G8R8A8_SRGB => some (.Bgra8UnormSrgb)
  | .R8G8B8A8_SNORM => some (.Rgba8Snorm)
  | .B8G8R8A8_UNORM => some (.Bgra8Unorm)
  | .B8G8R8A8_UINT => some (.Bgra8Unorm)
  | .R8G8B8A8_UINT => some (.Rgba8Uint)
  | .R8G8B8A8_SINT => some (.Rgba8Sint)
  | .A2B10G10R10_UINT_PACK32 => some (.Rgb10a2Uint)
  | .A2B10G10R10_UNORM_PACK32 => some (.Rgb10a2Unorm)
  | .B10G11R11_UFLOAT_PACK32 => some (.Rg11b10Ufloat)
  | .R32G32_UINT => some (.Rg32Uint)
  | .R32G32_SINT => some (.Rg32Sint)
  | .R32G32_SFLOAT => some (.Rg32Float)
  | .R16G16B16A16_UINT => some (.Rgba16Uint)
  | .R16G16B16A16_SINT => some (.Rgba16Sint)
  | .R16G16B16A16_UNORM => some (.Rgba16Unorm)
  | .R16G16B16A16_SNORM => some (.Rgba16Snorm)
  | .R16G16B16A16_SFLOAT => some (.Rgba16Float)
  | .R32G32B32A32_UINT => some (.Rgba32Uint)
  | .R32G32B32A32_SINT => some (.Rgba32Sint)
  | .R32G32B32A32_SFLOAT => some (.Rgba32Float)
  | .D32_SFLOAT => some (.Depth32Float)
  | .D32_SFLOAT_S8_UINT => some (.Depth32FloatStencil8)
  | .D16_UNORM => some (.Depth16Unorm)
  | .G8_B8R8_2PLANE_420_UNORM => some (.NV12)
  | .E5B9G9R9_UFLOAT_PACK32 => some (.Rgb9e5Ufloat)
  | .BC1_RGBA_UNORM_BLOCK => some (.Bc1RgbaUnorm)
  | .BC1_RGBA_SRGB_BLOCK => some (.Bc1RgbaUnormSrgb)
  | .BC2_UNORM_BLOCK => some (.Bc2RgbaUnorm)
  | .BC2_SRGB_BLOCK => some (.Bc2RgbaUnormSrgb)
  | .BC3_UNORM_BLOCK => some (.Bc3RgbaUnorm)
  | .BC3_SRGB_BLOCK => some (.Bc3RgbaUnormSrgb)
  | .BC4_UNORM_BLOCK => some (.Bc4RUnorm)
  | .BC4_SNORM_BLOCK => some (.Bc4RSnorm)
  | .BC5_UNORM_BLOCK => some (.Bc5RgUnorm)
  | .BC5_SNORM_BLOCK => some (.Bc5RgSnorm)
  | .BC6H_UFLOAT_BLOCK => some (.Bc6hRgbUfloat)
  | .BC6H_SFLOAT_BLOCK => some (.Bc6hRgbFloat)
  | .BC7_UNORM_BLOCK => some (.Bc7RgbaUnorm)
  | .BC7_SRGB_BLOCK => some (.Bc7RgbaUnormSrgb)
  | .ETC2_R8G8B8_UNORM_BLOCK => some (.Etc2Rgb8Unorm)
  | .ETC2_R8G8B8_SRGB_BLOCK => some (.Etc2Rgb8UnormSrgb)
  | .ETC2_R8G8B8A1_UNORM_BLOCK => some (.Etc2Rgb8A1Unorm)
  | .ETC2_R8G8B8A1_SRGB_BLOCK => some (.Etc2Rgb8A1UnormSrgb)
  | .ETC2_R8G8B8A8_UNORM_BLOCK => some (.Etc2Rgba8Unorm)
  | .ETC2_R8G8B8A8_SRGB_BLOCK => some (.Etc2Rgba8UnormSrgb)
  | .EAC_R11_UNORM_BLOCK => some (.EacR11Unorm)
  | .EAC_R11_SNORM_BLOCK => some (.EacR11Snorm)
  | .EAC_R11G11_UNORM_BLOCK => some (.EacRg11Unorm)
  | .EAC_R11G11_SNORM_BLOCK => some (.EacRg11Snorm)
  | _ => none

/-- Import errors, src/import/mod.rs lines 223-249 and the identical enum of
src/import/render_world/mod.rs lines 233-259 (the vk::Result payloads and the
unrecognized-fourcc payload carry no information the claims need and are not
modelled). -/
inductive ImportError where
  | VulkanIncompatibleFormat
  | WgpuIncompatibleFormat
  | ModifierInvalid
  | VulkanImageCreationFailed
  | UnrecognizedFourcc
  | NotVulkan
  | NoValidMemoryTypes
  | VulkanMemoryAllocFailed
  | VulkanImageMemoryBindFailed
  | IncorrectNumberOfPlanes
  | NoPlanes
deriving DecidableEq, Repr

/-- src/dmatex.rs lines 20-25: a plane descriptor.  The exclusively owned file
descriptor is modelled as a number; offset is u32, stride is i32. -/
structure DmatexPlane where
  dmabuf_fd : Nat
  offset : Nat
  stride : Int
deriving DecidableEq, Repr

/-- src/dmatex.rs lines 14-18. -/
structure Resolution where
  x : Nat
  y : Nat
deriving DecidableEq, Repr

/-- drm_fourcc::DrmFormat as stored in Dmatex: fourcc code plus 64-bit
modifier. -/
structure DrmFormatPair where
  code : DrmFourcc
  modifier : Nat
deriving DecidableEq, Repr

/-- src/dmatex.rs lines 5-12: the buffer descriptor consumed by the
render-world import path (src/import/render_world/hal/mod.rs). -/
structure Dmatex where
  planes : List DmatexPlane
  res : Resolution
  format : DrmFormatPair
  srgb : Bool
deriving DecidableEq, Repr

/-- The fourcc value held by the older descriptor shape that
src/import/hal.rs import_texture consumes: DrmFourcc::try_from(buf.format)
either recognizes it or fails with UnrecognizedFourcc. -/
inductive FourccCode where
  | known (c : DrmFourcc)
  | unknown
deriving DecidableEq, Repr

/-- The descriptor shape consumed by src/import/hal.rs import_texture: a raw
fourcc value and a separate u64 modifier field (buf.format, buf.modifier). -/
structure DmatexOld where
  planes : List DmatexPlane
  res : Resolution
  format : FourccCode
  modifier : Nat
  srgb : Bool
deriving DecidableEq, Repr

/-- src/import/render_world/hal/mod.rs lines 72-74: fn needs_disjoint. -/
def needs_disjoint (desc : Dmatex) : Bool :=
  decide (desc.planes.length > 1)

/-- The sRGB substitution step of choose_vk_format
(src/import/render_world/hal/mod.rs lines 64-68):
if dma.srgb, substitute to_srgb(base).unwrap_or(base), else keep base. -/
def apply_srgb (base : VkFormat) (want_srgb : Bool) : VkFormat :=
  if want_srgb then (to_srgb base).getD base else base

/-- The sRGB substitution step of import_texture (src/import/hal.rs lines
212-216): buf.srgb.then(vk_format_to_srgb).flatten().unwrap_or(format). -/
def apply_srgb_fm (base : VkFormat) (want_srgb : Bool) : VkFormat :=
  if want_srgb then (vk_format_to_srgb base).getD base else base

/-- src/import/render_world/hal/mod.rs lines 61-70: fn choose_vk_format. -/
def choose_vk_format (dma : Dmatex) : Except ImportError VkFormat :=
  match get_vk_format dma.format.code with
  | none => .error .VulkanIncompatibleFormat
  | some base => .ok (apply_srgb base dma.srgb)

/-- ash::vk::MemoryPropertyFlags::PROTECTED. -/
def PROTECTED_BIT : Nat := 0x20

/-- ash::vk::MemoryPropertyFlags::LAZILY_ALLOCATED. -/
def LAZILY_ALLOCATED_BIT : Nat := 0x10

/-- The forbidden property-flag set of select_memory_type_index
(src/import/render_world/hal/mod.rs line 294). -/
def forbiddenFlags : Nat := PROTECTED_BIT ||| LAZILY_ALLOCATED_BIT

/-- The loop of select_memory_type_index (src/import/render_world/hal/mod.rs
lines 297-306), scanning the remaining memory types; the head of the list is
the type at index i.  Each iteration skips the index when its compatibility
bit is unset or its property flags intersect the forbidden set, and otherwise
returns the index. -/
def selectMemAux (memoryTypeBits : Nat) : List Nat → Nat → Option Nat
  | [], _ => none
  | flags :: rest, i =>
    if !memoryTypeBits.testBit i then selectMemAux memoryTypeBits rest (i + 1)
    else if Nat.land flags forbiddenFlags != 0 then
      selectMemAux memoryTypeBits rest (i + 1)
    else some i

/-- src/import/render_world/hal/mod.rs lines 290-308: fn
select_memory_type_index.  The device memory-type table is given as the list
of per-type property-flag masks in index order (the source loops
`for i in 0..mem_props.memory_type_count` and reads
mem_props.memory_types[i].property_flags). -/
def select_memory_type_index (memory_type_bits : Nat) (memory_types : List Nat) :
    Option Nat :=
  selectMemAux memory_type_bits memory_types 0

/-- Memory-type index i is eligible for the given compatibility bitmask and
device table: the index exists, its bit is set in the mask, and its property
flags do not intersect the forbidden set. -/
def memEligible (bits : Nat) (types : List Nat) (i : Nat) : Bool :=
  decide (i < types.length) && bits.testBit i
    && (Nat.land (types.getD i 0) forbiddenFlags == 0)

theorem selectMemAux_spec (bits : Nat) (types : List Nat) :
    ∀ fuel i, types.length - i = fuel →
      ((selectMemAux bits (types.drop i) i = none ↔
          ∀ j, i ≤ j → memEligible bits types j = false)
        ∧ ∀ r, selectMemAux bits (types.drop i) i = some r →
            memEligible bits types r = true
              ∧ ∀ j, i ≤ j → j < r → memEligible bits types j = false) := by
  intro fuel
  induction fuel with
  | zero =>
    intro i hi
    have hlen : types.length ≤ i := Nat.le_of_sub_eq_zero hi
    rw [List.drop_eq_nil_of_le hlen]
    constructor
    · simp only [selectMemAux, true_iff]
      intro j hj
      simp [memEligible, Nat.lt_of_lt_of_le, decide_eq_false_iff_not]
      intro hjlen
      exact absurd (Nat.lt_of_lt_of_le hjlen (Nat.le_trans hlen hj)) (Nat.lt_irrefl j)
    · intro r hr
      simp [selectMemAux] at hr
  | succ n ih =>
    intro i hi
    have hilt : i < types.length := by omega
    have hdrop : types.drop i = types[i] :: types.drop (i + 1) :=
      List.drop_eq_getElem_cons hilt
    have hnext : types.length - (i + 1) = n := by omega
    obtain ⟨ihnone, ihsome⟩ := ih (i + 1) hnext
    have hgetD : types.getD i 0 = types[i] := by
      simp [List.getD, List.getElem?_eq_getElem hilt]
    by_cases hbit : bits.testBit i
    · by_cases hforb : Nat.land types[i] forbiddenFlags = 0
      · have hsel : selectMemAux bits (types.drop i) i = some i := by
          rw [hdrop]
          simp [selectMemAux, hbit, hforb]
        constructor
        · rw [hsel]
          constructor
          · intro h; cases h
          · intro h
            have := h i (Nat.le_refl i)
            rw [memEligible, hgetD] at this
            simp [hilt, hbit, hforb] at this
        · intro r hr
          rw [hsel] at hr
          cases hr
          constructor
          · rw [memEligible, hgetD]
            simp [hilt, hbit, hforb]
          · intro j hij hji
            exact absurd (Nat.lt_of_le_of_lt hij hji) (Nat.lt_irrefl i)
      · have hsel : selectMemAux bits (types.drop i) i
            = selectMemAux bits (types.drop (i + 1)) (i + 1) := by
          rw [hdrop]
          simp [selectMemAux, hbit, hforb]
        have hinel : memEligible bits types i = false := by
          rw [memEligible, hgetD]
          simp [hforb]
        constructor
        · rw [hsel, ihnone]
          constructor
          · intro h j hij
            rcases Nat.eq_or_lt_of_le hij with rfl | hlt
            · exact hinel
            · exact h j hlt
          · intro h j hij
            exact h j (Nat.le_of_succ_le hij)
        · intro r hr
          rw [hsel] at hr
          obtain ⟨h1, h2⟩ := ihsome r hr
          refine ⟨h1, ?_⟩
          intro j hij hji
          rcases Nat.eq_or_lt_of_le hij with rfl | hlt
          · exact hinel
          · exact h2 j hlt hji
    · have hsel : selectMemAux bits (types.drop i) i
          = selectMemAux bits (types.drop (i + 1)) (i + 1) := by
        rw [hdrop]
        simp [selectMemAux, hbit]
      have hinel : memEligible bits types i = false := by
        rw [memEligible]
        simp [hbit]
      constructor
      · rw [hsel, ihnone]
        constructor
        · intro h j hij
          rcases Nat.eq_or_lt_of_le hij with rfl | hlt
          · exact hinel
          · exact h j hlt
        · intro h j hij
          exact h j (Nat.le_of_succ_le hij)
      · intro r hr
        rw [hsel] at hr
        obtain ⟨h1, h2⟩ := ihsome r hr
        refine ⟨h1, ?_⟩
        intro j hij hji
        rcases Nat.eq_or_lt_of_le hij with rfl | hlt
        · exact hinel
        · exact h2 j hlt hji

/-- C1: the disjoint decision needs_disjoint returns true if and only if the
descriptor's plane count is strictly greater than 1 (so it is false for plane
counts 0 and 1 and true for 2, 3 and 4). -/
theorem needs_disjoint_iff (d : Dmatex) :
    needs_disjoint d = true ↔ 1 < d.planes.length := by
  simp [needs_disjoint]

/-- C2: select_memory_type_index returns the lowest index whose compatibility
bit is set and whose property flags avoid the forbidden set (protected,
lazily allocated); it never returns an ineligible index, and it returns none
(NoValidMemoryTypes at the caller) exactly when no eligible index exists. -/
theorem select_memory_type_index_correct (bits : Nat) (types : List Nat) :
    ((select_memory_type_index bits types = none ↔
        ∀ j, memEligible bits types j = false)
      ∧ ∀ r, select_memory_type_index bits types = some r →
          memEligible bits types r = true
            ∧ ∀ j, j < r → memEligible bits types j = false) := by
  obtain ⟨h1, h2⟩ := selectMemAux_spec bits types types.length 0 rfl
  rw [List.drop_zero] at h1 h2
  constructor
  · rw [select_memory_type_index, h1]
    exact ⟨fun h j => h j (Nat.zero_le j), fun h j _ => h j⟩
  · intro r hr
    obtain ⟨g1, g2⟩ := h2 r hr
    exact ⟨g1, fun j hj => g2 j (Nat.zero_le j) hj⟩

/-- C5: the sRGB substitution step returns the sRGB sibling of the format
when want_srgb is true and the format has an entry in the fixed sibling table
(to_srgb for the render-world path, vk_format_to_srgb for import_texture),
and returns the format unchanged in every other case; being a total function
it never produces an error. -/
theorem apply_srgb_spec (f : VkFormat) :
    apply_srgb f false = f ∧ apply_srgb_fm f false = f
      ∧ (∀ g, to_srgb f = some g → apply_srgb f true = g)
      ∧ (to_srgb f = none → apply_srgb f true = f)
      ∧ (∀ g, vk_format_to_srgb f = some g → apply_srgb_fm f true = g)
      ∧ (vk_format_to_srgb f = none → apply_srgb_fm f true = f) := by
  refine ⟨rfl, rfl, ?_, ?_, ?_, ?_⟩
  · intro g hg
    simp [apply_srgb, hg]
  · intro hg
    simp [apply_srgb, hg]
  · intro g hg
    simp [apply_srgb_fm, hg]
  · intro hg
    simp [apply_srgb_fm, hg]

/-- ash::vk::ImageType values relevant here. -/
inductive VkImageType where
  | TYPE_1D | TYPE_2D | TYPE_3D
deriving DecidableEq, Repr

/-- ash::vk::ImageTiling values relevant here. -/
inductive VkImageTiling where
  | OPTIMAL | LINEAR | DRM_FORMAT_MODIFIER_EXT
deriving DecidableEq, Repr

/-- ash::vk::SharingMode. -/
inductive VkSharingMode where
  | EXCLUSIVE | CONCURRENT
deriving DecidableEq, Repr

/-- ash::vk::ImageLayout values relevant here. -/
inductive VkImageLayout where
  | UNDEFINED | GENERAL
deriving DecidableEq, Repr

/-- ash::vk::ImageCreateFlags::DISJOINT (bit 0x200). -/
def DISJOINT_FLAG : Nat := 0x200

/-- ash::vk::ExternalMemoryHandleTypeFlags::DMA_BUF_EXT (bit 0x200). -/
def DMA_BUF_EXT_BIT : Nat := 0x200

/-- ash::vk::ImageUsageFlags bits: TRANSFER_SRC, TRANSFER_DST, SAMPLED,
COLOR_ATTACHMENT. -/
def USAGE_TRANSFER_SRC : Nat := 0x1
def USAGE_TRANSFER_DST : Nat := 0x2
def USAGE_SAMPLED : Nat := 0x4
def USAGE_COLOR_ATTACHMENT : Nat := 0x10

/-- src/import/render_world/hal/mod.rs lines 99-104: fn default_usage_flags. -/
def default_usage_flags : Nat :=
  USAGE_SAMPLED ||| USAGE_TRANSFER_SRC ||| USAGE_TRANSFER_DST ||| USAGE_COLOR_ATTACHMENT

/-- ash::vk::SubresourceLayout. -/
structure VkSubresourceLayout where
  offset : Nat
  row_pitch : Nat
  array_pitch : Nat
  depth_pitch : Nat
  size : Nat
deriving DecidableEq, Repr

/-- The value of an i32 reinterpreted as a vk::DeviceSize (u64) by a Rust
`as` cast: sign extension into 64 bits. -/
def deviceSize_of_i32 (s : Int) : Nat :=
  (s.emod (2 ^ 64)).toNat

/-- src/import/render_world/hal/mod.rs lines 154-165: fn plane_layouts.  One
vk::SubresourceLayout per plane, carrying the plane's byte offset and row
stride (cast to DeviceSize); array/depth pitch and size are zero. -/
def plane_layouts (dma : Dmatex) : List VkSubresourceLayout :=
  dma.planes.map fun plane =>
    { offset := plane.offset
      row_pitch := deviceSize_of_i32 plane.stride
      array_pitch := 0
      depth_pitch := 0
      size := 0 }

/-- ash::vk::Extent3D. -/
structure VkExtent3D where
  width : Nat
  height : Nat
  depth : Nat
deriving DecidableEq, Repr

/-- The vk::ImageCreateInfo built by create_vk_image
(src/import/render_world/hal/mod.rs lines 106-143), with its pNext chain
flattened into the record: external_memory_handle_types is the
ExternalMemoryImageCreateInfo payload, and drm_format_modifier plus
drm_plane_layouts are the ImageDrmFormatModifierExplicitCreateInfoEXT
payload. -/
structure VkImageCreateInfo where
  image_type : VkImageType
  format : VkFormat
  extent : VkExtent3D
  mip_levels : Nat
  array_layers : Nat
  samples : Nat
  tiling : VkImageTiling
  usage : Nat
  sharing_mode : VkSharingMode
  initial_layout : VkImageLayout
  flags : Nat
  external_memory_handle_types : Nat
  drm_format_modifier : Nat
  drm_plane_layouts : List VkSubresourceLayout

/-- src/import/render_world/hal/mod.rs lines 106-152: fn create_vk_image.
This is the ImageCreateInfo the function hands to
raw_device().create_image (lines 145-149); the disjoint argument selects the
DISJOINT creation flag (lines 120-124). -/
def create_vk_image_info (dma : Dmatex) (format : VkFormat) (disjoint : Bool) :
    VkImageCreateInfo :=
  { image_type := .TYPE_2D
    format := format
    extent := { width := dma.res.x, height := dma.res.y, depth := 1 }
    mip_levels := 1
    array_layers := 1
    samples := 1
    tiling := .DRM_FORMAT_MODIFIER_EXT
    usage := default_usage_flags
    sharing_mode := .EXCLUSIVE
    initial_layout := .UNDEFINED
    flags := if disjoint then DISJOINT_FLAG else 0
    external_memory_handle_types := DMA_BUF_EXT_BIT
    drm_format_modifier := dma.format.modifier
    drm_plane_layouts := plane_layouts dma }

/-- The creation info as built at the import_dmabuf_as_texture call site
(src/import/render_world/hal/mod.rs lines 27-28): disjoint is the Memory
Planner decision needs_disjoint. -/
def negotiated_image_info (dma : Dmatex) (fmt : VkFormat) : VkImageCreateInfo :=
  create_vk_image_info dma fmt (needs_disjoint dma)

/-- C3: for every imported descriptor, the image is created 2D with the
negotiated format, the declared resolution at depth 1, one array layer, one
mip level, one sample, DMA-BUF external-memory metadata, DRM-modifier tiling
with the descriptor's modifier and one explicit per-plane layout entry per
plane carrying that plane's byte offset and row stride, and the DISJOINT
creation flag exactly when the disjoint decision is true. -/
theorem create_vk_image_correct (dma : Dmatex) (fmt : VkFormat)
    (_hfmt : choose_vk_format dma = .ok fmt) :
    (negotiated_image_info dma fmt).image_type = .TYPE_2D
      ∧ (negotiated_image_info dma fmt).format = fmt
      ∧ (negotiated_image_info dma fmt).extent
          = { width := dma.res.x, height := dma.res.y, depth := 1 }
      ∧ (negotiated_image_info dma fmt).mip_levels = 1
      ∧ (negotiated_image_info dma fmt).array_layers = 1
      ∧ (negotiated_image_info dma fmt).samples = 1
      ∧ (negotiated_image_info dma fmt).external_memory_handle_types = DMA_BUF_EXT_BIT
      ∧ (negotiated_image_info dma fmt).tiling = .DRM_FORMAT_MODIFIER_EXT
      ∧ (negotiated_image_info dma fmt).drm_format_modifier = dma.format.modifier
      ∧ (negotiated_image_info dma fmt).drm_plane_layouts.length = dma.planes.length
      ∧ (∀ i, ∀ h : i < dma.planes.length,
          (negotiated_image_info dma fmt).drm_plane_layouts.get
              ⟨i, by simpa [negotiated_image_info, create_vk_image_info,
                plane_layouts] using h⟩
            = { offset := (dma.planes.get ⟨i, h⟩).offset
                row_pitch := deviceSize_of_i32 (dma.planes.get ⟨i, h⟩).stride
                array_pitch := 0
                depth_pitch := 0
                size := 0 })
      ∧ (Nat.land (negotiated_image_info dma fmt).flags DISJOINT_FLAG ≠ 0
          ↔ needs_disjoint dma = true) := by
  refine ⟨rfl, rfl, rfl, rfl, rfl, rfl, rfl, rfl, rfl, ?_, ?_, ?_⟩
  · simp [negotiated_image_info, create_vk_image_info, plane_layouts]
  · intro i h
    simp [negotiated_image_info, create_vk_image_info, plane_layouts]
  · by_cases hd : needs_disjoint dma
    · simp [negotiated_image_info, create_vk_image_info, hd, DISJOINT_FLAG]
    · simp only [negotiated_image_info, create_vk_image_info, hd, if_false,
        Bool.false_eq_true]
      constructor
      · intro hcontra
        exact absurd (by decide : Nat.land 0 DISJOINT_FLAG = 0) hcontra
      · intro hcontra
        exact absurd hcontra (by simp [hd])

/-- A concrete two-plane Argb8888 descriptor at resolution 4x4, srgb off. -/
def dmaTwoPlane : Dmatex :=
  { planes := [⟨10, 0, 16⟩, ⟨11, 64, 16⟩]
    res := { x := 4, y := 4 }
    format := { code := .Argb8888, modifier := 0 }
    srgb := false }

/-- C3 witness: the theorem applied to the concrete two-plane descriptor
whose negotiated format is B8G8R8A8_UNORM. -/
theorem create_vk_image_correct_witness :
    (negotiated_image_info dmaTwoPlane .B8G8R8A8_UNORM).format = .B8G8R8A8_UNORM
      ∧ (negotiated_image_info dmaTwoPlane .B8G8R8A8_UNORM).extent
          = { width := 4, height := 4, depth := 1 }
      ∧ (Nat.land (negotiated_image_info dmaTwoPlane .B8G8R8A8_UNORM).flags
            DISJOINT_FLAG ≠ 0
          ↔ needs_disjoint dmaTwoPlane = true) := by
  obtain ⟨_, h2, h3, _, _, _, _, _, _, _, _, h12⟩ :=
    create_vk_image_correct dmaTwoPlane .B8G8R8A8_UNORM rfl
  exact ⟨h2, h3, h12⟩

/-- src/import/mod.rs lines 160-163: the transfer direction. -/
inductive ImageQueueTransfer where
  | Acquire
  | Release
deriving DecidableEq, Repr

/-- vk::QUEUE_FAMILY_EXTERNAL (the u32 value !1 = 4294967294). -/
def QUEUE_FAMILY_EXTERNAL : Nat := 4294967294

/-- ash::vk::ImageAspectFlags::COLOR. -/
def COLOR_ASPECT_BIT : Nat := 0x1

/-- The render-world view of an imported texture inside the shared table as
memory_barrier sees it: texture.as_hal::<Vulkan>() yields the raw Vulkan
image handle when the texture is Vulkan-backed. -/
structure ImportedTextureHandle where
  rawHandle : Option Nat
deriving DecidableEq, Repr

/-- src/import/mod.rs lines 84-88: one entry of the shared table
ImportedDmatexs.  The UnImported payload (descriptor, drop callback, usage)
is carried as the descriptor; the Imported payload is the texture handle
view above. -/
inductive DmaImageEntry where
  | unImported (dmatex : DmatexOld)
  | imported (tex : ImportedTextureHandle)
deriving DecidableEq, Repr

/-- A cmd_pipeline_barrier call recorded by memory_barrier
(src/import/hal.rs lines 105-136): the call's stage masks together with its
single vk::ImageMemoryBarrier. -/
structure RecordedBarrier where
  src_stage_top_of_pipe : Bool
  dst_stage_bottom_of_pipe : Bool
  src_access : Nat
  dst_access : Nat
  old_layout : VkImageLayout
  new_layout : VkImageLayout
  src_queue_family : Nat
  dst_queue_family : Nat
  image : Nat
  aspect : Nat
  base_mip_level : Nat
  level_count : Nat
  base_array_layer : Nat
  layer_count : Nat
deriving DecidableEq, Repr

/-- The images memory_barrier iterates over (src/import/hal.rs lines 92-104):
the Imported entries of the table, then their available raw Vulkan
handles. -/
def memory_barrier_images (table : List (Nat × DmaImageEntry)) : List Nat :=
  (table.filterMap fun v =>
    match v.2 with
    | .unImported _ => none
    | .imported t => some t).filterMap fun imported => imported.rawHandle

/-- The barrier recorded for one image (src/import/hal.rs lines 105-136). -/
def memory_barrier_record (localQueueFamily : Nat) (dir : ImageQueueTransfer)
    (image : Nat) : RecordedBarrier :=
  { src_stage_top_of_pipe := true
    dst_stage_bottom_of_pipe := true
    src_access := 0
    dst_access := 0
    old_layout := .GENERAL
    new_layout := .GENERAL
    src_queue_family :=
      match dir with
      | .Acquire => QUEUE_FAMILY_EXTERNAL
      | .Release => localQueueFamily
    dst_queue_family :=
      match dir with
      | .Acquire => localQueueFamily
      | .Release => QUEUE_FAMILY_EXTERNAL
    image := image
    aspect := COLOR_ASPECT_BIT
    base_mip_level := 0
    level_count := 1
    base_array_layer := 0
    layer_count := 1 }

/-- The full list of barriers the recording loop of memory_barrier issues. -/
def memory_barrier_barriers (localQueueFamily : Nat)
    (table : List (Nat × DmaImageEntry)) (dir : ImageQueueTransfer) :
    List RecordedBarrier :=
  (memory_barrier_images table).map (memory_barrier_record localQueueFamily dir)

/-- C7: the transfer routine records one barrier per currently-imported image
of the table and none for entries not yet imported; every barrier has
TOP_OF_PIPE source and BOTTOM_OF_PIPE destination stage, empty access masks,
GENERAL layout on both sides, and queue families (external, local) for
Acquire and (local, external) for Release. -/
theorem memory_barrier_barriers_correct (q : Nat)
    (table : List (Nat × DmaImageEntry)) (dir : ImageQueueTransfer) :
    ((memory_barrier_barriers q table dir).map (fun b => b.image)
        = memory_barrier_images table)
      ∧ (memory_barrier_images table
          = table.filterMap fun v =>
              match v.2 with
              | .unImported _ => none
              | .imported t => t.rawHandle)
      ∧ ∀ b, b ∈ memory_barrier_barriers q table dir →
          b.src_stage_top_of_pipe = true ∧ b.dst_stage_bottom_of_pipe = true
            ∧ b.src_access = 0 ∧ b.dst_access = 0
            ∧ b.old_layout = .GENERAL ∧ b.new_layout = .GENERAL
            ∧ b.src_queue_family
                = (match dir with
                  | .Acquire => QUEUE_FAMILY_EXTERNAL
                  | .Release => q)
            ∧ b.dst_queue_family
                = (match dir with
                  | .Acquire => q
                  | .Release => QUEUE_FAMILY_EXTERNAL) := by
  refine ⟨?_, ?_, ?_⟩
  · rw [memory_barrier_barriers, List.map_map]
    have hcomp : ((fun b => b.image) ∘ memory_barrier_record q dir)
        = fun img : Nat => img := by
      funext img
      rfl
    rw [hcomp, List.map_id']
  · rw [memory_barrier_images, List.filterMap_filterMap]
    congr 1
    funext v
    rcases v with ⟨id, entry⟩
    cases entry <;> rfl
  · intro b hb
    rw [memory_barrier_barriers, List.mem_map] at hb
    obtain ⟨img, _, rfl⟩ := hb
    exact ⟨rfl, rfl, rfl, rfl, rfl, rfl, rfl, rfl⟩

/-- A concrete shared table: one unimported entry and one imported entry
whose raw Vulkan handle is 77. -/
def tableOneImported : List (Nat × DmaImageEntry) :=
  [(1, .unImported { planes := [], res := ⟨1, 1⟩, format := .unknown,
                     modifier := 0, srgb := false }),
   (2, .imported ⟨some 77⟩)]

/-- C7 witness: on the concrete table, the Acquire barriers cover exactly the
one imported image and use (external, local) queue families. -/
theorem memory_barrier_barriers_correct_witness :
    ((memory_barrier_barriers 5 tableOneImported .Acquire).map (fun b => b.image)
        = [77])
      ∧ ∀ b, b ∈ memory_barrier_barriers 5 tableOneImported .Acquire →
          b.src_queue_family = QUEUE_FAMILY_EXTERNAL ∧ b.dst_queue_family = 5 := by
  obtain ⟨h1, h2, h3⟩ := memory_barrier_barriers_correct 5 tableOneImported .Acquire
  refine ⟨h1.trans (h2.trans (by rfl)), ?_⟩
  intro b hb
  obtain ⟨_, _, _, _, _, _, g7, g8⟩ := h3 b hb
  exact ⟨g7, g8⟩

/-- The failure oracle of memory_barrier: which of the routine's fallible
steps succeed (src/import/hal.rs lines 39-191). -/
structure BarrierOracle where
  create_pool_ok : Bool
  alloc_buffer_ok : Bool
  lock_ok : Bool
  begin_ok : Bool
  end_ok : Bool
  create_semaphore_ok : Bool
  submit_ok : Bool
  wait_ok : Bool
deriving DecidableEq, Repr

/-- What a memory_barrier run leaves behind: the shared table afterwards, the
barriers recorded into the command buffer (none when recording never began),
and whether the submit-and-wait completed. -/
structure BarrierOutcome where
  table : List (Nat × DmaImageEntry)
  recorded : Option (List RecordedBarrier)
  completed : Bool
deriving DecidableEq, Repr

/-- src/import/hal.rs lines 30-195: fn memory_barrier.  Every fallible step
that fails logs, destroys the Vulkan objects created so far and returns
early; the shared table is locked (lines 67-74) and then only iterated
(lines 92-104) — no path writes to it. -/
def memory_barrier (o : BarrierOracle) (localQueueFamily : Nat)
    (table : List (Nat × DmaImageEntry)) (dir : ImageQueueTransfer) :
    BarrierOutcome :=
  if !o.create_pool_ok then ⟨table, none, false⟩
  else if !o.alloc_buffer_ok then ⟨table, none, false⟩
  else if !o.lock_ok then ⟨table, none, false⟩
  else if !o.begin_ok then ⟨table, none, false⟩
  else
    let barriers := memory_barrier_barriers localQueueFamily table dir
    if !o.end_ok then ⟨table, some barriers, false⟩
    else if !o.create_semaphore_ok then ⟨table, some barriers, false⟩
    else if !o.submit_ok then ⟨table, some barriers, false⟩
    else if !o.wait_ok then ⟨table, some barriers, false⟩
    else ⟨table, some barriers, true⟩

/-- C8: on every execution path of the transfer routine — including every
failure path (pool or buffer creation, table lock, begin or end recording,
semaphore creation, submission, semaphore wait) — the shared table after the
call equals the table before it. -/
theorem memory_barrier_preserves_table (o : BarrierOracle) (q : Nat)
    (table : List (Nat × DmaImageEntry)) (dir : ImageQueueTransfer) :
    (memory_barrier o q table dir).table = table := by
  rw [memory_barrier]
  split
  · rfl
  · split
    · rfl
    · split
      · rfl
      · split
        · rfl
        · split
          · rfl
          · split
            · rfl
            · split
              · rfl
              · split <;> rfl

/-- Device operations performed by the import path, in call order.  Memory
handles are numbered by allocation order; queries carry the plane aspect they
were scoped to. -/
inductive VkEffect where
  | queryModifiers
  | queryModifierInfo
  | createImage
  | queryMemProps
  | queryImageReqs (aspect : Option Nat)
  | querySubresourceLayout (aspect : Nat)
  | allocMemory (k : Nat)
  | destroyImage
  | freeMemory (mem : Nat)
  | bindMemory
deriving DecidableEq, Repr

/-- vk::ImageAspectFlags::MEMORY_PLANE_{0,1,2,3}_EXT for plane index i, an
IncorrectNumberOfPlanes error past plane 3 (src/import/render_world/hal/
mod.rs lines 210-218, and the identical inline match of src/import/hal.rs
lines 462-468). -/
def memory_plane_aspect (i : Nat) : Except ImportError Nat :=
  match i with
  | 0 => .ok 0x80
  | 1 => .ok 0x100
  | 2 => .ok 0x200
  | 3 => .ok 0x400
  | _ => .error .IncorrectNumberOfPlanes

/-- vk::FormatFeatureFlags2::DISJOINT bit. -/
def DISJOINT_FEATURE_BIT : Nat := 0x400000

/-- src/import/hal.rs lines 208-216 (and identically src/import/mod.rs lines
252-260): DrmFourcc::try_from on the raw format value, the
drm_fourcc_to_vk_format lookup, then the sRGB substitution step. -/
def negotiate_vk_format_old (format : FourccCode) (srgb : Bool) :
    Except ImportError VkFormat :=
  match format with
  | .unknown => .error .UnrecognizedFourcc
  | .known fourcc =>
    match drm_fourcc_to_vk_format fourcc with
    | none => .error .VulkanIncompatibleFormat
    | some f => .ok (apply_srgb_fm f srgb)

/-- The parts of the wgpu::TextureDescriptor built by get_imported_descriptor
that depend on the buffer (src/import/mod.rs lines 261-277); label, mip and
sample counts, dimension and usages are constants there. -/
structure WgpuTextureDescriptor where
  width : Nat
  height : Nat
  format : WgpuTextureFormat

/-- src/import/mod.rs lines 251-278: fn get_imported_descriptor.  Formats
with no wgpu equivalent fail with WgpuIncompatibleFormat here, before any
device access. -/
def get_imported_descriptor (buf : DmatexOld) :
    Except ImportError WgpuTextureDescriptor :=
  match negotiate_vk_format_old buf.format buf.srgb with
  | .error e => .error e
  | .ok vf =>
    match vulkan_to_wgpu vf with
    | none => .error .WgpuIncompatibleFormat
    | some wf => .ok { width := buf.res.x, height := buf.res.y, format := wf }

/-- The forbidden property flags of import_texture's memory-type mask
(src/import/hal.rs lines 340-343): RDMA_CAPABLE_NV | DEVICE_COHERENT_AMD |
PROTECTED | LAZILY_ALLOCATED. -/
def forbiddenFlagsOld : Nat := 0x100 ||| 0x40 ||| 0x20 ||| 0x10

/-- src/import/hal.rs lines 335-350: the fold over the enumerated memory
types, starting from u32::MAX and clearing the bit of every type whose
property flags intersect the forbidden set. -/
def valid_memory_types (memTypes : List Nat) : Nat :=
  memTypes.enum.foldl
    (fun u p =>
      if Nat.land forbiddenFlagsOld p.2 != 0 then
        Nat.land u (0xFFFFFFFF ^^^ (1 <<< p.1))
      else u)
    0xFFFFFFFF

/-- src/import/hal.rs lines 351-359: the first memory-type index whose
property flags intersect the valid_memory_types mask reinterpreted as a
property-flag value (vk::MemoryPropertyFlags::from_raw). -/
def select_memory_type_index_old (memTypes : List Nat) : Option Nat :=
  (memTypes.enum.find? fun p =>
    Nat.land p.2 (valid_memory_types memTypes) != 0).map fun p => p.1

/-- The device oracle of import_texture: whether the wgpu device is
Vulkan-backed, the modifier list returned by get_drm_modifiers as
(drm_format_modifier, drm_format_modifier_tiling_features) pairs, the
success of get_drm_image_modifier_info, of create_image, the memory-type
property flags, the success of each allocate_memory call in call order, and
the success of bind_image_memory2. -/
structure HalOracle where
  is_vulkan : Bool
  modifiers : List (Nat × Nat)
  modifier_info_ok : Bool
  create_image_ok : Bool
  mem_types : List Nat
  alloc_ok : Nat → Bool
  bind_ok : Bool

/-- src/import/hal.rs lines 556-568: fn allocate_image.  The allocation is
attempted; on failure the image is destroyed (inspect_err, line 564) and the
error becomes VulkanMemoryAllocFailed. -/
def allocate_image (ok : Bool) (k : Nat) : Except ImportError Nat × List VkEffect :=
  if ok then (.ok k, [.allocMemory k])
  else (.error .VulkanMemoryAllocFailed, [.allocMemory k, .destroyImage])

/-- The loop of import_disjoint (src/import/hal.rs lines 460-508): per plane,
the memory-plane aspect (error past plane 3), the plane-scoped requirement
and subresource-layout queries, then allocate_image; each success contributes
one (memory, plane-aspect) binding. -/
def import_disjoint_go (o : HalOracle) (planes : List DmatexPlane) (i : Nat) :
    Except ImportError (List (Nat × Option Nat)) × List VkEffect :=
  match planes with
  | [] => (.ok [], [])
  | _plane :: rest =>
    match memory_plane_aspect i with
    | .error e => (.error e, [])
    | .ok aspect =>
      let tr1 : List VkEffect :=
        [.queryImageReqs (some aspect), .querySubresourceLayout aspect]
      match allocate_image (o.alloc_ok i) i with
      | (.error e, tr2) => (.error e, tr1 ++ tr2)
      | (.ok mem, tr2) =>
        match import_disjoint_go o rest (i + 1) with
        | (.error e, tr3) => (.error e, tr1 ++ tr2 ++ tr3)
        | (.ok mems, tr3) => (.ok ((mem, some aspect) :: mems), tr1 ++ tr2 ++ tr3)

/-- src/import/hal.rs lines 447-510: fn import_disjoint (the as_hal guard,
then the plane loop). -/
def import_disjoint (o : HalOracle) (buf : DmatexOld) :
    Except ImportError (List (Nat × Option Nat)) × List VkEffect :=
  if !o.is_vulkan then (.error .NotVulkan, [])
  else import_disjoint_go o buf.planes 0

/-- src/import/hal.rs lines 512-554: fn import_non_disjoint: the as_hal
guard, the first plane's descriptor (NoPlanes when none), a whole-image
requirement query, then allocate_image; the single binding carries no plane
aspect. -/
def import_non_disjoint (o : HalOracle) (buf : DmatexOld) :
    Except ImportError (Nat × Option Nat) × List VkEffect :=
  if !o.is_vulkan then (.error .NotVulkan, [])
  else
    match buf.planes with
    | [] => (.error .NoPlanes, [])
    | _plane :: _ =>
      let tr1 : List VkEffect := [.queryImageReqs none]
      match allocate_image (o.alloc_ok 0) 0 with
      | (.error e, tr2) => (.error e, tr1 ++ tr2)
      | (.ok mem, tr2) => (.ok (mem, none), tr1 ++ tr2)

/-- The texture import_texture hands back on success: the imported plane
memories (in plane order) and the release closure passed to
texture_from_raw (src/import/hal.rs lines 404-421), which frees every
imported memory and then destroys the image, wrapped in the Option'd
DropCallback; plus the wgpu-visible size and format. -/
structure HalImportedTexture where
  mems : List Nat
  drop_actions : Option (List VkEffect)
  width : Nat
  height : Nat
  format : WgpuTextureFormat

/-- src/import/hal.rs lines 361-370: the plane-import dispatch of
import_texture: import_disjoint in disjoint mode, otherwise a single
import_non_disjoint wrapped in a one-element vector. -/
def import_planes_old (o : HalOracle) (buf : DmatexOld) (disjoint : Bool) :
    Except ImportError (List (Nat × Option Nat)) × List VkEffect :=
  if disjoint then import_disjoint o buf
  else
    match import_non_disjoint o buf with
    | (.error e, tr) => (.error e, tr)
    | (.ok bind, tr) => (.ok [bind], tr)

/-- The tail of import_texture once a memory type is selected
(src/import/hal.rs lines 361-445): the result of the plane import, then
bind_image_memory2 (failure VulkanImageMemoryBindFailed), the second
vulkan_to_wgpu check of the texture descriptor (line 398), and
texture_from_raw carrying the release closure (lines 404-421) that frees
every imported memory and then destroys the image. -/
def import_texture_tail (o : HalOracle) (wgpu_desc : WgpuTextureDescriptor)
    (vulkan_format : VkFormat)
    (imported : Except ImportError (List (Nat × Option Nat)) × List VkEffect)
    (tr0 : List VkEffect) :
    Except ImportError HalImportedTexture × List VkEffect :=
  match imported with
  | (.error e, tr) => (.error e, tr0 ++ tr)
  | (.ok binds, tr) =>
    if !o.bind_ok then
      (.error .VulkanImageMemoryBindFailed, tr0 ++ tr ++ [.bindMemory])
    else
      match vulkan_to_wgpu vulkan_format with
      | none => (.error .WgpuIncompatibleFormat, tr0 ++ tr ++ [.bindMemory])
      | some _fmt =>
        let memHandles := binds.map fun b => b.1
        (.ok { mems := memHandles
               drop_actions := some
                 ((memHandles.map VkEffect.freeMemory) ++ [VkEffect.destroyImage])
               width := wgpu_desc.width
               height := wgpu_desc.height
               format := wgpu_desc.format },
          tr0 ++ tr ++ [.bindMemory])

/-- Helper: whenever the import tail succeeds, the release closure attached
to the produced texture frees exactly the imported memories and then
destroys the image. -/
theorem import_texture_tail_ok (o : HalOracle) (wgpu_desc : WgpuTextureDescriptor)
    (vulkan_format : VkFormat)
    (imported : Except ImportError (List (Nat × Option Nat)) × List VkEffect)
    (tr0 : List VkEffect) (t : HalImportedTexture) (tr : List VkEffect) :
    import_texture_tail o wgpu_desc vulkan_format imported tr0 = (.ok t, tr) →
      t.drop_actions
        = some ((t.mems.map VkEffect.freeMemory) ++ [VkEffect.destroyImage]) := by
  rcases imported with ⟨res, tri⟩
  rcases res with e | binds
  · intro h
    rw [import_texture_tail] at h
    cases h
  · intro h
    rw [import_texture_tail] at h
    split at h
    · cases h
    · split at h
      · cases h
      · cases h
        rfl

/-- src/import/hal.rs lines 197-445: fn import_texture, with device calls
replaced by the oracle and recorded in the effect trace.  The step order is
the source's: the NoPlanes guard (204-206), format negotiation (208-216),
get_imported_descriptor (217), the as_hal backend check (219-224),
get_drm_modifiers (226-230), the modifier search (232-235), the disjoint
fold over the planes (244-249), get_drm_image_modifier_info (260-269),
create_image (321-326), the memory-property query and type selection
(328-359), the plane imports (361-370), bind_image_memory2 (372-387), the
second vulkan_to_wgpu check (392-402), and texture_from_raw with the release
closure (404-421). -/
def import_texture (o : HalOracle) (buf : DmatexOld) :
    Except ImportError HalImportedTexture × List VkEffect :=
  if buf.planes.isEmpty then (.error .NoPlanes, [])
  else
    match negotiate_vk_format_old buf.format buf.srgb with
    | .error e => (.error e, [])
    | .ok vulkan_format =>
      match get_imported_descriptor buf with
      | .error e => (.error e, [])
      | .ok wgpu_desc =>
        if !o.is_vulkan then (.error .NotVulkan, [])
        else
          match o.modifiers.find? fun m => m.1 == buf.modifier with
          | none => (.error .ModifierInvalid, [.queryModifiers])
          | some vk_drm_modifier =>
            let disjoint := buf.planes.foldl
              (fun d _ =>
                d || (Nat.land vk_drm_modifier.2 DISJOINT_FEATURE_BIT
                  == DISJOINT_FEATURE_BIT))
              false
            if !o.modifier_info_ok then
              (.error .ModifierInvalid, [.queryModifiers, .queryModifierInfo])
            else if !o.create_image_ok then
              (.error .VulkanImageCreationFailed,
                [.queryModifiers, .queryModifierInfo, .createImage])
            else
              let tr0 : List VkEffect :=
                [.queryModifiers, .queryModifierInfo, .createImage, .queryMemProps]
              match select_memory_type_index_old o.mem_types with
              | none => (.error .NoValidMemoryTypes, tr0)
              | some _memory_type_idx =>
                import_texture_tail o wgpu_desc vulkan_format
                  (import_planes_old o buf disjoint) tr0

/-- src/import/mod.rs lines 95-107: DropCallback holds an Option'd callback
(here: the release actions it would perform); Drop takes the Option, so a
run consumes the callback and leaves none behind. -/
def run_drop_callback :
    Option (List VkEffect) → Option (List VkEffect) × List VkEffect
  | some acts => (none, acts)
  | none => (none, [])

/-- C4: a descriptor with an empty plane list makes import_texture return
NoPlanes immediately: the effect trace is empty, so in particular no device
memory allocation and no image creation happened before the error. -/
theorem import_texture_noplanes_first (o : HalOracle) (res : Resolution)
    (format : FourccCode) (modifier : Nat) (srgb : Bool) :
    import_texture o
        { planes := [], res := res, format := format, modifier := modifier,
          srgb := srgb }
      = (.error .NoPlanes, []) := by
  rfl

/-- C9: the release routine wrapped in DropCallback runs at most once — a
second invocation finds the Option emptied and performs nothing — and every
successfully imported texture carries the attached routine, whose actions
free every imported plane memory and then destroy the native image. -/
theorem drop_callback_correct :
    (∀ s : Option (List VkEffect),
        (run_drop_callback (run_drop_callback s).1).2 = [])
      ∧ (∀ (o : HalOracle) (buf : DmatexOld) (t : HalImportedTexture)
            (tr : List VkEffect),
          import_texture o buf = (.ok t, tr) →
            t.drop_actions
              = some ((t.mems.map VkEffect.freeMemory) ++ [VkEffect.destroyImage])) := by
  constructor
  · intro s
    cases s <;> rfl
  · intro o buf t tr h
    rw [import_texture] at h
    split at h
    · cases h
    · split at h
      · cases h
      · split at h
        · cases h
        · split at h
          · cases h
          · split at h
            · cases h
            · split at h
              · cases h
              · split at h
                · cases h
                · split at h
                  · cases h
                  · exact import_texture_tail_ok _ _ _ _ _ _ _ h

/-- The format-negotiation prefix of import_dmabuf_as_texture
(src/import/render_world/hal/mod.rs lines 21-22): choose_vk_format, then the
vulkan_to_wgpu compatibility check.  Both run before ensure_modifier_supported
and before any image or memory operation, so their outcome cannot depend on
the device. -/
def import_dmabuf_format_stage (dma : Dmatex) :
    Except ImportError WgpuTextureFormat :=
  match choose_vk_format dma with
  | .error e => .error e
  | .ok vk =>
    match vulkan_to_wgpu vk with
    | none => .error .WgpuIncompatibleFormat
    | some w => .ok w

/-- C10: format codes accepted by the fourcc-to-Vulkan tables can map to
Vulkan formats with no entry in vulkan_to_wgpu — Rgba8888 to
A8B8G8R8_UNORM_PACK32 (get_vk_format) and Bgr888 to B8G8R8_UNORM
(drm_fourcc_to_vk_format) — and their sRGB siblings are equally absent, so
an import with such a code fails with WgpuIncompatibleFormat for every
device oracle and srgb flag. -/
theorem fourcc_without_wgpu_equivalent :
    get_vk_format .Rgba8888 = some .A8B8G8R8_UNORM_PACK32
      ∧ vulkan_to_wgpu .A8B8G8R8_UNORM_PACK32 = none
      ∧ vulkan_to_wgpu .A8B8G8R8_SRGB_PACK32 = none
      ∧ drm_fourcc_to_vk_format .Bgr888 = some .B8G8R8_UNORM
      ∧ vulkan_to_wgpu .B8G8R8_UNORM = none
      ∧ vulkan_to_wgpu .B8G8R8_SRGB = none
      ∧ (∀ (o : HalOracle) (p : DmatexPlane) (ps : List DmatexPlane)
            (res : Resolution) (modifier : Nat) (srgb : Bool),
          (import_texture o
              { planes := p :: ps, res := res, format := .known .Bgr888,
                modifier := modifier, srgb := srgb }).1
            = .error .WgpuIncompatibleFormat)
      ∧ (∀ dma : Dmatex, dma.format.code = .Rgba8888 →
          import_dmabuf_format_stage dma = .error .WgpuIncompatibleFormat) := by
  refine ⟨rfl, rfl, rfl, rfl, rfl, rfl, ?_, ?_⟩
  · intro o p ps res modifier srgb
    cases srgb <;> rfl
  · intro dma h
    rcases dma with ⟨planes, res, ⟨code, modifier⟩, srgb⟩
    simp only at h
    subst h
    cases srgb <;> rfl

/-- The per-plane memory requirements returned by query_image_requirements
(src/import/render_world/hal/mod.rs lines 220-252). -/
structure PlaneReq where
  size : Nat
  memory_type_bits : Nat
  needs_dedicated : Bool
deriving DecidableEq, Repr

/-- Device operations of the render-world plane importer, in call order. -/
inductive PlaneEffect where
  | queryReqs (aspect : Option Nat)
  | allocMemory (k : Nat)
  | freeMemory (mem : Nat)
  | destroyImage
  | bindMemory
deriving DecidableEq, Repr

/-- The device oracle of the render-world plane importer: the requirements
each query returns (keyed by the queried plane aspect), the success of each
allocate_memory call in call order, and the device memory-type table. -/
structure PlaneOracle where
  req : Option Nat → PlaneReq
  alloc_ok : Nat → Bool
  mem_types : List Nat

/-- src/import/render_world/hal/mod.rs lines 254-288: fn import_plane_memory.
A memory type is selected for the requirement bitmask (NoValidMemoryTypes
when none is eligible), the plane's file descriptor is consumed, and the
allocation is attempted; failure maps the error to VulkanMemoryAllocFailed
and nothing else happens — no image destruction, no freeing. -/
def import_plane_memory (allocOk : Bool) (k : Nat) (req : PlaneReq)
    (memTypes : List Nat) : Except ImportError Nat × List PlaneEffect :=
  match select_memory_type_index req.memory_type_bits memTypes with
  | none => (.error .NoValidMemoryTypes, [])
  | some _idx =>
    if allocOk then (.ok k, [.allocMemory k])
    else (.error .VulkanMemoryAllocFailed, [.allocMemory k])

/-- The disjoint-mode loop of import_and_bind_image_memory
(src/import/render_world/hal/mod.rs lines 196-204): per plane, the memory
plane aspect (IncorrectNumberOfPlanes past plane 3), the plane-scoped
requirement query, then import_plane_memory; each success accumulates one
(memory, aspect) bind. -/
def import_planes_loop (o : PlaneOracle) (planes : List DmatexPlane) (i : Nat) :
    Except ImportError (List (Nat × Option Nat)) × List PlaneEffect :=
  match planes with
  | [] => (.ok [], [])
  | _plane :: rest =>
    match memory_plane_aspect i with
    | .error e => (.error e, [])
    | .ok aspect =>
      match import_plane_memory (o.alloc_ok i) i (o.req (some aspect)) o.mem_types with
      | (.error e, tr) => (.error e, .queryReqs (some aspect) :: tr)
      | (.ok mem, tr) =>
        match import_planes_loop o rest (i + 1) with
        | (.error e, tr2) =>
          (.error e, (.queryReqs (some aspect) :: tr) ++ tr2)
        | (.ok binds, tr2) =>
          (.ok ((mem, some aspect) :: binds),
            (.queryReqs (some aspect) :: tr) ++ tr2)

/-- src/import/render_world/hal/mod.rs lines 175-208: fn
import_and_bind_image_memory.  Combined mode takes the first plane (NoPlanes
when there is none), queries whole-image requirements, imports one memory
and binds it; disjoint mode runs the loop and then a single
bind_image_memory2 (failure VulkanImageMemoryBindFailed). -/
def import_and_bind_image_memory (o : PlaneOracle) (bindOk : Bool)
    (dma : Dmatex) (disjoint : Bool) :
    Except ImportError (List (Nat × Option Nat)) × List PlaneEffect :=
  if !disjoint then
    match dma.planes with
    | [] => (.error .NoPlanes, [])
    | _p :: _ =>
      match import_plane_memory (o.alloc_ok 0) 0 (o.req none) o.mem_types with
      | (.error e, tr) => (.error e, .queryReqs none :: tr)
      | (.ok mem, tr) =>
        if bindOk then
          (.ok [(mem, none)], (.queryReqs none :: tr) ++ [.bindMemory])
        else
          (.error .VulkanImageMemoryBindFailed,
            (.queryReqs none :: tr) ++ [.bindMemory])
  else
    match import_planes_loop o dma.planes 0 with
    | (.error e, tr) => (.error e, tr)
    | (.ok binds, tr) =>
      if bindOk then (.ok binds, tr ++ [.bindMemory])
      else (.error .VulkanImageMemoryBindFailed, tr ++ [.bindMemory])

/-- Helper: import_plane_memory only ever performs the allocation attempt. -/
theorem import_plane_memory_effects (allocOk : Bool) (k : Nat) (req : PlaneReq)
    (memTypes : List Nat) (e : PlaneEffect) :
    e ∈ (import_plane_memory allocOk k req memTypes).2 → e = .allocMemory k := by
  rw [import_plane_memory]
  split
  · intro h
    simp at h
  · split
    · intro h
      simp at h
      exact h
    · intro h
      simp at h
      exact h

/-- Helper: the disjoint-mode loop only performs requirement queries and
allocation attempts. -/
theorem import_planes_loop_effects (o : PlaneOracle) :
    ∀ (planes : List DmatexPlane) (i : Nat) (e : PlaneEffect),
      e ∈ (import_planes_loop o planes i).2 →
        (∃ a, e = .queryReqs a) ∨ (∃ k, e = .allocMemory k) := by
  intro planes
  induction planes with
  | nil =>
    intro i e h
    simp [import_planes_loop] at h
  | cons p rest ih =>
    intro i e h
    rw [import_planes_loop] at h
    rcases hasp : memory_plane_aspect i with err | aspect
    · simp only [hasp] at h
      simp at h
    · simp only [hasp] at h
      rcases hpm : import_plane_memory (o.alloc_ok i) i (o.req (some aspect))
          o.mem_types with ⟨pres, ptr⟩
      have hptr : ∀ x, x ∈ ptr → x = PlaneEffect.allocMemory i := by
        intro x hx
        have hx2 := import_plane_memory_effects (o.alloc_ok i) i
          (o.req (some aspect)) o.mem_types x
        rw [hpm] at hx2
        exact hx2 hx
      cases pres with
      | error err2 =>
        simp only [hpm] at h
        have h2 : e ∈ PlaneEffect.queryReqs (some aspect) :: ptr := h
        rw [List.mem_cons] at h2
        rcases h2 with rfl | h2
        · exact Or.inl ⟨_, rfl⟩
        · exact Or.inr ⟨_, hptr e h2⟩
      | ok mem =>
        rcases hlp : import_planes_loop o rest (i + 1) with ⟨lres, ltr⟩
        have hltr : ∀ x, x ∈ ltr →
            (∃ a, x = PlaneEffect.queryReqs a)
              ∨ ∃ k, x = PlaneEffect.allocMemory k := by
          intro x hx
          have hx2 := ih (i + 1) x
          rw [hlp] at hx2
          exact hx2 hx
        cases lres with
        | error e3 =>
          simp only [hpm, hlp] at h
          have h2 : e ∈ (PlaneEffect.queryReqs (some aspect) :: ptr) ++ ltr := h
          rw [List.cons_append, List.mem_cons, List.mem_append] at h2
          rcases h2 with rfl | h2 | h2
          · exact Or.inl ⟨_, rfl⟩
          · exact Or.inr ⟨_, hptr e h2⟩
          · exact hltr e h2
        | ok binds =>
          simp only [hpm, hlp] at h
          have h2 : e ∈ (PlaneEffect.queryReqs (some aspect) :: ptr) ++ ltr := h
          rw [List.cons_append, List.mem_cons, List.mem_append] at h2
          rcases h2 with rfl | h2 | h2
          · exact Or.inl ⟨_, rfl⟩
          · exact Or.inr ⟨_, hptr e h2⟩
          · exact hltr e h2

/-- Helper: import_and_bind_image_memory only performs requirement queries,
allocation attempts and the bind call. -/
theorem import_and_bind_effects (o : PlaneOracle) (bindOk : Bool)
    (dma : Dmatex) (disjoint : Bool) (e : PlaneEffect) :
    e ∈ (import_and_bind_image_memory o bindOk dma disjoint).2 →
      (∃ a, e = .queryReqs a) ∨ (∃ k, e = .allocMemory k) ∨ e = .bindMemory := by
  intro h
  rw [import_and_bind_image_memory] at h
  cases disjoint with
  | false =>
    rcases hpl : dma.planes with _ | ⟨p, rest⟩
    · simp only [hpl] at h
      simp at h
    · simp only [hpl] at h
      rcases hpm : import_plane_memory (o.alloc_ok 0) 0 (o.req none)
          o.mem_types with ⟨pres, ptr⟩
      have hptr : ∀ x, x ∈ ptr → x = PlaneEffect.allocMemory 0 := by
        intro x hx
        have hx2 := import_plane_memory_effects (o.alloc_ok 0) 0 (o.req none)
          o.mem_types x
        rw [hpm] at hx2
        exact hx2 hx
      cases pres with
      | error err =>
        simp only [hpm] at h
        have h2 : e ∈ PlaneEffect.queryReqs none :: ptr := h
        rw [List.mem_cons] at h2
        rcases h2 with rfl | h2
        · exact Or.inl ⟨_, rfl⟩
        · exact Or.inr (Or.inl ⟨_, hptr e h2⟩)
      | ok mem =>
        simp only [hpm] at h
        cases bindOk with
        | true =>
          have h2 : e ∈ (PlaneEffect.queryReqs none :: ptr)
              ++ [PlaneEffect.bindMemory] := h
          rw [List.cons_append, List.mem_cons, List.mem_append,
            List.mem_singleton] at h2
          rcases h2 with rfl | h2 | rfl
          · exact Or.inl ⟨_, rfl⟩
          · exact Or.inr (Or.inl ⟨_, hptr e h2⟩)
          · exact Or.inr (Or.inr rfl)
        | false =>
          have h2 : e ∈ (PlaneEffect.queryReqs none :: ptr)
              ++ [PlaneEffect.bindMemory] := h
          rw [List.cons_append, List.mem_cons, List.mem_append,
            List.mem_singleton] at h2
          rcases h2 with rfl | h2 | rfl
          · exact Or.inl ⟨_, rfl⟩
          · exact Or.inr (Or.inl ⟨_, hptr e h2⟩)
          · exact Or.inr (Or.inr rfl)
  | true =>
    rcases hlp : import_planes_loop o dma.planes 0 with ⟨lres, ltr⟩
    have hltr : ∀ x, x ∈ ltr →
        (∃ a, x = PlaneEffect.queryReqs a)
          ∨ ∃ k, x = PlaneEffect.allocMemory k := by
      intro x hx
      have hx2 := import_planes_loop_effects o dma.planes 0 x
      rw [hlp] at hx2
      exact hx2 hx
    cases lres with
    | error err =>
      simp only [hlp] at h
      have h2 : e ∈ ltr := h
      rcases hltr e h2 with h3 | h3
      · exact Or.inl h3
      · exact Or.inr (Or.inl h3)
    | ok binds =>
      simp only [hlp] at h
      cases bindOk with
      | true =>
        have h2 : e ∈ ltr ++ [PlaneEffect.bindMemory] := h
        rw [List.mem_append, List.mem_singleton] at h2
        rcases h2 with h2 | rfl
        · rcases hltr e h2 with h3 | h3
          · exact Or.inl h3
          · exact Or.inr (Or.inl h3)
        · exact Or.inr (Or.inr rfl)
      | false =>
        have h2 : e ∈ ltr ++ [PlaneEffect.bindMemory] := h
        rw [List.mem_append, List.mem_singleton] at h2
        rcases h2 with h2 | rfl
        · rcases hltr e h2 with h3 | h3
          · exact Or.inl h3
          · exact Or.inr (Or.inl h3)
        · exact Or.inr (Or.inr rfl)

/-- C6: when a plane's file-descriptor import fails, the render-world import
step returns VulkanMemoryAllocFailed and performs no cleanup of its own:
import_plane_memory leaves the not-yet-bound image alone (the caller must
destroy it), the error propagates out of import_and_bind_image_memory, and
no path of the plane importer ever destroys the image or frees a previously
imported plane memory. -/
theorem import_plane_memory_no_cleanup :
    (∀ (allocOk : Bool) (k : Nat) (req : PlaneReq) (memTypes : List Nat)
        (idx : Nat),
      select_memory_type_index req.memory_type_bits memTypes = some idx →
        allocOk = false →
        import_plane_memory allocOk k req memTypes
          = (.error .VulkanMemoryAllocFailed, [.allocMemory k]))
      ∧ (∀ (o : PlaneOracle) (bindOk : Bool) (p : DmatexPlane)
            (ps : List DmatexPlane) (res : Resolution) (fmtp : DrmFormatPair)
            (srgb : Bool) (idx : Nat),
          select_memory_type_index (o.req none).memory_type_bits o.mem_types
              = some idx →
            o.alloc_ok 0 = false →
            import_and_bind_image_memory o bindOk
                { planes := p :: ps, res := res, format := fmtp, srgb := srgb }
                false
              = (.error .VulkanMemoryAllocFailed, [.queryReqs none, .allocMemory 0]))
      ∧ (∀ (o : PlaneOracle) (bindOk : Bool) (dma : Dmatex) (disjoint : Bool)
            (e : PlaneEffect),
          e ∈ (import_and_bind_image_memory o bindOk dma disjoint).2 →
            e ≠ .destroyImage ∧ ∀ m, e ≠ .freeMemory m) := by
  refine ⟨?_, ?_, ?_⟩
  · intro allocOk k req memTypes idx hsel hfail
    rw [import_plane_memory, hsel, hfail]
    rfl
  · intro o bindOk p ps res fmtp srgb idx hsel hfail
    rw [import_and_bind_image_memory]
    simp only [Bool.not_false, if_pos]
    rw [import_plane_memory, hsel, hfail]
    rfl
  · intro o bindOk dma disjoint e he
    rcases import_and_bind_effects o bindOk dma disjoint e he
        with ⟨a, rfl⟩ | ⟨k, rfl⟩ | rfl
    · exact ⟨fun h => PlaneEffect.noConfusion h,
        fun m h => PlaneEffect.noConfusion h⟩
    · exact ⟨fun h => PlaneEffect.noConfusion h,
        fun m h => PlaneEffect.noConfusion h⟩
    · exact ⟨fun h => PlaneEffect.noConfusion h,
        fun m h => PlaneEffect.noConfusion h⟩

end BevyDmabuf
